import Mathlib

/-!
Shallow embedding of the Sakis chatbot backend (`src/server.js`, the
variant with the `/chat` + `/intake` endpoints) and proofs about the
behaviour of its intake state machine, case-number generation, report
pipeline and snippet retrieval.

External collaborators (the OpenAI completion provider, `JSON.parse`,
Firestore, Nodemailer) are modelled as explicit parameters of the
handlers; everything the server itself computes is embedded as
executable Lean definitions translated from the JavaScript source.
-/

set_option maxRecDepth 16000

namespace SakisBot

/-- JSON values, as produced by `express.json` body parsing and by
`JSON.parse` on the model's report output. Numbers are modelled as
integers (no claim involves fractional values). -/
inductive Json where
  | null : Json
  | bool (b : Bool) : Json
  | num (n : Int) : Json
  | str (s : String) : Json
  | arr (elems : List Json) : Json
  | obj (fields : List (String × Json)) : Json

/-- JavaScript truthiness of a JSON value (`!v` in the source is the
negation of this). -/
def Json.truthy : Json → Bool
  | .null => false
  | .bool b => b
  | .num n => n != 0
  | .str s => s != ""
  | .arr _ => true
  | .obj _ => true

/-- Property access `obj.key` on a parsed JSON value: `some` for a
present field, `none` for JavaScript `undefined`. -/
def Json.get : Json → String → Option Json
  | .obj fields, k => fields.lookup k
  | _, _ => none

/-- The character `'0' + d` for a decimal digit `d`. -/
def decDigitChar (d : Nat) : Char := Char.ofNat (48 + d)

/-- Fuel-driven worker for decimal rendering (the fuel only forces
structural termination; `jsNatChars` always supplies enough). -/
def jsNatCharsAux : Nat → Nat → List Char
  | 0, _ => []
  | fuel + 1, n =>
    if n < 10 then [decDigitChar n]
    else jsNatCharsAux fuel (n / 10) ++ [decDigitChar (n % 10)]

/-- Decimal digit characters of a natural number, most significant
first — the embedding of JavaScript number-to-string conversion
(template interpolation `${n}`) for non-negative integers. -/
def jsNatChars (n : Nat) : List Char := jsNatCharsAux (n + 1) n

/-- JavaScript decimal rendering of a non-negative integer. -/
def jsNatRepr (n : Nat) : String := String.mk (jsNatChars n)

/-- JavaScript decimal rendering of an integer. -/
def jsIntRepr (n : Int) : String :=
  if n < 0 then "-" ++ jsNatRepr (-n).toNat else jsNatRepr n.toNat

mutual

/-- Template interpolation `${v}` for a JSON value: JavaScript
`String(v)` semantics (arrays join with commas, objects print
`[object Object]`). -/
def Json.display : Json → String
  | .null => "null"
  | .bool b => if b then "true" else "false"
  | .num n => jsIntRepr n
  | .str s => s
  | .arr xs => String.intercalate "," (Json.displayList xs)
  | .obj _ => "[object Object]"

def Json.displayList : List Json → List String
  | [] => []
  | j :: rest => j.display :: Json.displayList rest

end

/-- Template interpolation of a possibly-absent property
(`undefined` prints as the string "undefined"). -/
def jsShow (v : Option Json) : String :=
  match v with
  | none => "undefined"
  | some j => j.display

/-- `needle.isPrefixOf`-based substring test: embedding of JavaScript
`hay.includes(needle)` (first argument the needle, second the hay). -/
def subLC : List Char → List Char → Bool
  | needle, [] => needle.isEmpty
  | needle, c :: rest => needle.isPrefixOf (c :: rest) || subLC needle rest

/-- JavaScript `hay.includes(needle)`. -/
def strIncludes (hay needle : String) : Bool := subLC needle.data hay.data

/-- JavaScript `String.prototype.padStart(len, c)`. -/
def padStart (len : Nat) (c : Char) (s : String) : String :=
  String.mk (List.replicate (len - s.length) c) ++ s

/-- The calendar components the case-number generator reads off the
JavaScript `Date` object `now`: `getFullYear()`, `getMonth()`
(0-based month index) and `getDate()` (day of month). -/
structure JSDate where
  year : Nat
  monthIndex : Nat
  day : Nat
deriving Repr, DecidableEq

/-- The base-36 digit characters produced by `Number.prototype.toString(36)`
(lower-case letters for digit values 10–35). -/
def base36Char (d : Fin 36) : Char :=
  if d.val < 10 then Char.ofNat (48 + d.val) else Char.ofNat (97 + (d.val - 10))

/-- The random suffix `Math.random().toString(36).substr(2, 6).toUpperCase()`.
The random source is modelled by the list of base-36 fractional digits
that `toString(36)` prints after `"0."`; JavaScript prints the shortest
such expansion, so the list may have any length, including zero (for
`Math.random() = 0`, `toString(36)` is just `"0"`). `substr(2, 6)` keeps
at most the first six of those digits. -/
def randSuffix (r : List (Fin 36)) : String :=
  String.mk ((r.take 6).map (fun d => Char.toUpper (base36Char d)))

/-- The case-number generator of the finalize branch:
`` `SA-${year}${month+1 padded}${day padded}-${random suffix}` ``. -/
def caseNumber (d : JSDate) (r : List (Fin 36)) : String :=
  "SA-" ++ jsNatRepr d.year ++ padStart 2 '0' (jsNatRepr (d.monthIndex + 1))
    ++ padStart 2 '0' (jsNatRepr d.day) ++ "-" ++ randSuffix r

/-- One conversation message as sent by the caller on `/intake`
(`{ role, content }`). -/
structure Message where
  role : String
  content : String
deriving Repr, DecidableEq

/-- Number of assistant (analyst) messages in a conversation. -/
def assistantCount (conv : List Message) : Nat :=
  conv.countP (fun m => m.role == "assistant")

/-- The termination marker the analyst persona is instructed to emit. -/
def endOfIntakeMarker : String := "[END_OF_INTAKE]"

/-- The analyst-persona instruction (`analystSystemPrompt` in the
source), transcribed from the template literal. -/
def analystSystemPrompt : String :=
  "You are an expert AI Project Analyst working for Sakis Athan. Your goal is to conduct an intelligent interview with a potential client to fully understand their project needs.\n        - Your current conversation history is provided below.\n        - Your task is to ask the ONE best, most insightful follow-up question to clarify the user's needs.\n        - Analyze the user's last message in the context of the whole conversation. Identify ambiguities, unstated assumptions, or missing details.\n        - Ask open-ended questions. Avoid simple yes/no questions.\n        - If the user's request seems clear, detailed, and actionable, and you have a good sense of the applications involved, the core workflow, and the desired outcome, you MUST end your response with the exact phrase: \"[END_OF_INTAKE]\".\n        - Otherwise, just ask your clarifying question without any preamble."

/-- The manager-persona instruction (`managerSystemPrompt` in the
source), transcribed from the template literal. -/
def managerSystemPrompt : String :=
  "You are a Senior Project Manager. You will be given a transcript of a client interview. Your task is to create a structured, professional project report in JSON format.\n            The JSON object must have these exact keys: \"projectName\", \"projectSummary\", \"keyFeatures\", \"estimatedTimeline\".\n            - projectName: A concise, descriptive name for the project.\n            - projectSummary: A 2-3 sentence paragraph summarizing the client's problem and the proposed solution.\n            - keyFeatures: An array of strings, with each string being a specific feature or requirement.\n            - estimatedTimeline: A string providing a rough, non-binding estimate of the work required (e.g., \"5-8 hours\", \"3-5 business days\", \"2-3 weeks\").\n            Analyze the transcript carefully to provide a realistic estimate. Base your response ONLY on the provided transcript."

/-- The message array sent to the provider for the analyst call:
the analyst system prompt followed by the caller's conversation. -/
def analystMessages (conv : List Message) : List Message :=
  ⟨"system", analystSystemPrompt⟩ :: conv

/-- `conversation.map(m => role: content).join newline` — the transcript
text embedded in the manager call's user message. -/
def transcriptText (conv : List Message) : String :=
  String.intercalate "\n" (conv.map fun m => m.role ++ ": " ++ m.content)

/-- The message array sent to the provider for the manager call. -/
def managerMessages (conv : List Message) : List Message :=
  [⟨"system", managerSystemPrompt⟩,
   ⟨"user", "Here is the interview transcript:\n\n" ++ transcriptText conv⟩]

/-- The turn decision of the intake state machine: either keep
interviewing (return the analyst's question) or finalize. -/
inductive IntakeDecision where
  | continueWith (question : String)
  | complete (reply : String)
deriving Repr, DecidableEq

/-- The branch `analystReply.includes(END_OF_INTAKE_MARKER)` of the
`/intake` handler, isolated as the turn-decision function. -/
def intakeDecision (analystReply : String) : IntakeDecision :=
  if strIncludes analystReply endOfIntakeMarker then .complete analystReply
  else .continueWith analystReply

/-- Outcome of one completion-provider call: the extracted
`choices[0].message.content` on success, or a failed / non-ok /
content-less response (all of which end in the handler's catch). -/
inductive ProviderOutcome where
  | ok (text : String)
  | fail
deriving Repr, DecidableEq

/-- The document written to the `intakeReports` collection:
`{...report, caseNumber, timestamp: serverTimestamp, fullTranscript}`
(the store-assigned server timestamp is left implicit). -/
structure StoredDoc where
  reportFields : Json
  caseNumber : String
  fullTranscript : List Message

/-- The mail passed to `transporter.sendMail`. -/
structure EmailMsg where
  recipient : String
  subject : String
  html : String

/-- Log of external calls made while handling one `/intake` request:
provider calls, store writes attempted and persisted, mails attempted
and sent. -/
structure Effects where
  analystCalls : List (List Message)
  managerCalls : List (List Message)
  storeCalls : List (String × StoredDoc)
  stored : List (String × StoredDoc)
  mailCalls : List EmailMsg
  mailsSent : List EmailMsg

/-- No external calls. -/
def Effects.empty : Effects := ⟨[], [], [], [], [], []⟩

/-- HTTP response of the `/intake` endpoint. -/
inductive IntakeResponse where
  | badRequest (error : String)
  | serverError (error : String)
  | inProgress (reply : String)
  | complete (caseNum : String) (report : Json)

/-- `OPENAI_API_KEY = process.env.OPENAI_API_KEY || 'sk-proj-…'`: the
source supplies a non-empty fallback literal, so the configured-key
guard can never fire in this variant. -/
def openaiKeyPresent : Bool := true

/-- The 400 error message of `/intake`. -/
def intakeBadRequestMsg : String := "Request body must contain a \"conversation\" array."

/-- The 500 error message of the `/intake` catch block. -/
def intakeErrorMsg : String := "An internal error occurred while processing your request."

/-- The transcript section of the notification email:
role "user" renders as Client, anything else as Analyst. -/
def renderTranscript (conv : List Message) : String :=
  String.intercalate "" (conv.map fun m =>
    "<p><strong>" ++ (if m.role == "user" then "Client" else "Analyst")
      ++ ":</strong> " ++ m.content ++ "</p>")

/-- The email body template. `report.keyFeatures.map(...)` throws a
TypeError unless `keyFeatures` is an array, so the rendering is
`none` exactly in that case; every other report field is interpolated
with JavaScript `undefined`-tolerant display. -/
def renderEmailBody (cn : String) (report : Json) (conv : List Message) : Option String :=
  match report.get "keyFeatures" with
  | some (Json.arr fs) => some
      ("<h1>New Project Intake Report</h1><p><strong>Case Number:</strong> " ++ cn
        ++ "</p><hr><h2>" ++ jsShow (report.get "projectName")
        ++ "</h2><p><strong>Summary:</strong> " ++ jsShow (report.get "projectSummary")
        ++ "</p><h3>Key Features:</h3><ul>"
        ++ String.intercalate "" (fs.map fun f => "<li>" ++ f.display ++ "</li>")
        ++ "</ul><p><strong>Estimated Timeline:</strong> " ++ jsShow (report.get "estimatedTimeline")
        ++ "</p><hr><h3>Full Transcript:</h3>" ++ renderTranscript conv)
  | _ => none

/-- The mail sent on finalize. -/
def intakeMail (cn : String) (report : Json) (body : String) : EmailMsg :=
  ⟨"sakissystems@gmail.com",
   "New Project Intake: " ++ jsShow (report.get "projectName") ++ " (" ++ cn ++ ")",
   body⟩

/-- The external world of one `/intake` request: the current date and
the random digits drawn at finalize time, the outcome of the two
provider calls, the behaviour of `JSON.parse` on the manager output,
and whether the store write and the mail delivery succeed. -/
structure IntakeEnv where
  now : JSDate
  rand : List (Fin 36)
  analyst : ProviderOutcome
  manager : ProviderOutcome
  jsonParse : String → Option Json
  storeOk : Bool
  mailOk : Bool

/-- The case commit region of the finalize branch
(case-number generation + store write), taking the store contents and
returning the minted case number with the new contents. -/
def commit (report : Json) (conv : List Message) (d : JSDate) (r : List (Fin 36))
    (store : List (String × StoredDoc)) : String × List (String × StoredDoc) :=
  let cn := caseNumber d r
  (cn, store ++ [(cn, ⟨report, cn, conv⟩)])

/-- The `/intake` request handler. `conversation` is the extracted
body field: `none` for an absent / falsy / non-array value (all
rejected alike by `!conversation || !Array.isArray(conversation)`). -/
def intakeHandler (env : IntakeEnv) (conversation : Option (List Message)) :
    IntakeResponse × Effects :=
  if !openaiKeyPresent then
    (.serverError "OpenAI API key is not configured on the server.", .empty)
  else
    match conversation with
    | none => (.badRequest intakeBadRequestMsg, .empty)
    | some conv =>
      if conv.length == 0 then (.badRequest intakeBadRequestMsg, .empty)
      else
        match env.analyst with
        | .fail => (.serverError intakeErrorMsg, ⟨[analystMessages conv], [], [], [], [], []⟩)
        | .ok analystReply =>
          match intakeDecision analystReply with
          | .continueWith reply =>
            (.inProgress reply, ⟨[analystMessages conv], [], [], [], [], []⟩)
          | .complete _ =>
            match env.manager with
            | .fail =>
              (.serverError intakeErrorMsg,
               ⟨[analystMessages conv], [managerMessages conv], [], [], [], []⟩)
            | .ok reportJsonString =>
              match env.jsonParse reportJsonString with
              | none =>
                (.serverError intakeErrorMsg,
                 ⟨[analystMessages conv], [managerMessages conv], [], [], [], []⟩)
              | some report =>
                let cn := caseNumber env.now env.rand
                let doc : StoredDoc := ⟨report, cn, conv⟩
                if !env.storeOk then
                  (.serverError intakeErrorMsg,
                   ⟨[analystMessages conv], [managerMessages conv], [(cn, doc)], [], [], []⟩)
                else
                  match renderEmailBody cn report conv with
                  | none =>
                    (.serverError intakeErrorMsg,
                     ⟨[analystMessages conv], [managerMessages conv],
                      [(cn, doc)], [(cn, doc)], [], []⟩)
                  | some body =>
                    let mail := intakeMail cn report body
                    if !env.mailOk then
                      (.serverError intakeErrorMsg,
                       ⟨[analystMessages conv], [managerMessages conv],
                        [(cn, doc)], [(cn, doc)], [mail], []⟩)
                    else
                      (.complete cn report,
                       ⟨[analystMessages conv], [managerMessages conv],
                        [(cn, doc)], [(cn, doc)], [mail], [mail]⟩)

/-- One knowledge-base entry of `400QA2.json` (`{ Q, A }`). -/
structure QAItem where
  Q : String
  A : String
deriving Repr, DecidableEq

/-- A knowledge-base entry together with the score the retrieval
attaches to it (`{ ...item, score }`). -/
structure ScoredItem where
  Q : String
  A : String
  score : Nat
deriving Repr, DecidableEq

/-- The whitespace class of the regular expression `\s` (ASCII part). -/
def isWs (c : Char) : Bool :=
  c == ' ' || c == '\t' || c == '\n' || c == '\r' || c == '\x0b' || c == '\x0c'

/-- Worker for `query.split(/\s+/)`: splits at maximal whitespace runs,
with the JavaScript edge behaviour of an empty token at the start
(and end) when the string begins (ends) with whitespace, and `[""]`
on the empty string. -/
def splitWsGo : Nat → List Char → List Char → List (List Char)
  | 0, _, cur => [cur.reverse]
  | fuel + 1, cs, cur =>
    match cs with
    | [] => [cur.reverse]
    | c :: rest =>
      if isWs c then cur.reverse :: splitWsGo fuel (rest.dropWhile isWs) []
      else splitWsGo fuel rest (c :: cur)

/-- `query.split(/\s+/)` on a string's characters (the fuel only
forces structural termination: each step consumes at least one
character, so `length + 1` always suffices). -/
def splitWs (s : String) : List (List Char) := splitWsGo (s.data.length + 1) s.data []

/-- JavaScript `String.prototype.toLowerCase` (ASCII range). -/
def jsToLower (s : String) : String := String.map Char.toLower s

/-- The score loop of `getRelevantSnippets`: how many query words
occur as substrings of the lower-cased candidate question. -/
def scoreOf (queryWords : List (List Char)) (question : String) : Nat :=
  queryWords.countP (fun w => subLC w (jsToLower question).data)

/-- The comparator `(a, b) => b.score - a.score` of the stable
JavaScript `Array.prototype.sort`, as the Boolean order fed to a
stable merge sort. -/
def scoredLe (a b : ScoredItem) : Bool := decide (b.score ≤ a.score)

/-- The scored, positively-filtered candidate list of
`getRelevantSnippets`, in corpus order (before sorting). -/
def scoredCandidates (query : String) (data : List QAItem) : List ScoredItem :=
  let usable := data.filter (fun item : QAItem => item.Q != "" && item.A != "")
  let scored := usable.map
    (fun item => ScoredItem.mk item.Q item.A (scoreOf (splitWs (jsToLower query)) item.Q))
  scored.filter (fun item => decide (0 < item.score))

/-- `getRelevantSnippets(query, data, count)`: score each usable item
by query-word hits on its lower-cased question, drop zero scores,
stable-sort by descending score, return the first `count`. -/
def getRelevantSnippets (query : String) (data : List QAItem) (count : Nat) : List ScoredItem :=
  ((scoredCandidates query data).mergeSort scoredLe).take count

/-- The knowledge-base text block spliced into the `/chat` system
instruction. -/
def knowledgeBaseText (snips : List ScoredItem) : String :=
  if snips.length > 0 then
    String.intercalate "\n\n" (snips.map fun item => "Q: " ++ item.Q ++ "\nA: " ++ item.A)
  else "No specific information found in the knowledge base for this query."

/-- The 400 error message of `/chat`. -/
def chatBadRequestMsg : String := "Request body must contain a \"message\" field."

/-- The fallback reply substituted for a falsy provider content. -/
def chatFallbackReply : String := "Sorry, I couldn't get a proper response. Please try again."

/-- HTTP outcome of the `/chat` endpoint; `crash` models the uncaught
TypeError when a truthy non-string `message` reaches
`query.toLowerCase()` outside the try block. -/
inductive ChatResponse where
  | badRequest (error : String)
  | serverError (error : String)
  | ok (reply : String)
  | crash
deriving Repr, DecidableEq

/-- External world of one `/chat` request: the loaded knowledge base
and the completion provider (a function of the system-instruction
text built from the retrieved snippets). -/
structure ChatEnv where
  qaData : List QAItem
  provider : String → ProviderOutcome

/-- The `/chat` request handler. `message` is the extracted body
field (`none` = absent). The second component records whether the
completion provider was called. -/
def chatHandler (env : ChatEnv) (message : Option Json) : ChatResponse × Bool :=
  if !openaiKeyPresent then
    (.serverError "OpenAI API key is not configured on the server.", false)
  else
    match message with
    | none => (.badRequest chatBadRequestMsg, false)
    | some v =>
      if !v.truthy then (.badRequest chatBadRequestMsg, false)
      else
        match v with
        | .str s =>
          let snippets := getRelevantSnippets s env.qaData 7
          match env.provider (knowledgeBaseText snippets) with
          | .fail => (.serverError "Failed to fetch response from AI.", true)
          | .ok text => (.ok (if text == "" then chatFallbackReply else text), true)
        | _ => (.crash, false)

/-- Character-level format check behind `caseNumberSpecFormat`. -/
def caseFormatChars (cs : List Char) : Bool :=
  cs.take 3 == ['S', 'A', '-'] &&
  ((cs.drop 3).take 8).length == 8 &&
  ((cs.drop 3).take 8).all Char.isDigit &&
  (cs.drop 11).take 1 == ['-'] &&
  (cs.drop 12).length == 6 &&
  (cs.drop 12).all (fun c => c.isUpper || c.isDigit)

/-- Format predicate transcribed from the SPEC's words (§3 CaseNumber,
claim C7), not from the source: the prefix "SA-", eight decimal digits,
a hyphen, and exactly six uppercase alphanumeric characters. -/
def caseNumberSpecFormat (s : String) : Bool := caseFormatChars s.data

/-! Concrete inputs used by the witness and counterexample theorems. -/

/-- A one-message conversation: no analyst turn has happened yet. -/
def convW : List Message := [⟨"user", "I need a bot for customer FAQs"⟩]

/-- A non-empty conversation whose last message is analyst-authored. -/
def convAssistantLast : List Message := [⟨"assistant", "What is your budget?"⟩]

/-- A model report output carrying all four keys the manager prompt
asks for (note: `interviewDate` is not among them). -/
def reportFull : Json := Json.obj
  [("projectName", .str "FAQ Bot"),
   ("projectSummary", .str "A chatbot answering customer FAQs."),
   ("keyFeatures", .arr [.str "FAQ answering", .str "email handoff"]),
   ("estimatedTimeline", .str "2-3 weeks")]

/-- A model report output missing `projectName`, `projectSummary` and
`interviewDate`. -/
def reportSparse : Json := Json.obj
  [("keyFeatures", .arr [.str "FAQ answering"]),
   ("estimatedTimeline", .str "1 week")]

/-- An analyst reply carrying the termination marker. -/
def replyDone : String := "Understood. [END_OF_INTAKE]"

/-- The date 2024-01-01 (`getMonth() = 0`). -/
def dateW : JSDate := ⟨2024, 0, 1⟩

/-- Six base-36 random digits. -/
def randW : List (Fin 36) := [0, 1, 2, 3, 4, 5]

/-- A fully-succeeding environment whose analyst terminates at once
and whose manager output parses to `reportFull`. -/
def envComplete : IntakeEnv :=
  ⟨dateW, randW, .ok replyDone, .ok "raw-report-json",
   fun _ => some reportFull, true, true⟩

/-- As `envComplete`, but the manager output parses to `reportSparse`. -/
def envSparse : IntakeEnv :=
  ⟨dateW, randW, .ok replyDone, .ok "raw-report-json",
   fun _ => some reportSparse, true, true⟩

/-- As `envComplete`, but `JSON.parse` fails on the manager output. -/
def envParseFail : IntakeEnv :=
  ⟨dateW, randW, .ok replyDone, .ok "not json",
   fun _ => none, true, true⟩

/-- As `envComplete`, but the mail delivery fails (store still succeeds). -/
def envMailFail : IntakeEnv :=
  ⟨dateW, randW, .ok replyDone, .ok "raw-report-json",
   fun _ => some reportFull, true, false⟩

/-- An environment whose analyst asks a follow-up question. -/
def envContinue : IntakeEnv :=
  ⟨dateW, randW, .ok "What apps do you use?", .fail, fun _ => none, true, true⟩

/-- A second draw of six base-36 random digits. -/
def randW2 : List (Fin 36) := [9, 8, 7, 6, 5, 4]

/-- The concrete email body rendered for `reportFull`. -/
def bodyW : String :=
  (renderEmailBody (caseNumber dateW randW) reportFull convW).getD ""

/-- A chat environment with an empty knowledge base and a failing
provider (the provider is never reached in the claims using it). -/
def chatEnvW : ChatEnv := ⟨[], fun _ => .fail⟩

/-- A small knowledge-base corpus. -/
def corpusW : List QAItem :=
  [⟨"What workflow automation do you offer?", "Business process automation."⟩,
   ⟨"Do you build chatbots?", "Yes, AI chatbots."⟩,
   ⟨"What is your automation stack?", "Python and cloud services."⟩]

/-! Helper lemmas about the `/intake` handler's branches. -/

lemma length_beq_zero_false {conv : List Message} (h : conv ≠ []) :
    (conv.length == 0) = false := by
  rw [beq_eq_false_iff_ne]
  simpa [List.length_eq_zero] using h

lemma intakeDecision_complete_iff {reply : String} :
    intakeDecision reply = .complete reply ↔
      strIncludes reply endOfIntakeMarker = true := by
  unfold intakeDecision
  constructor
  · intro h
    by_contra hb
    rw [Bool.not_eq_true] at hb
    simp [hb] at h
  · intro h
    simp [h]

lemma intakeHandler_analyst_fail {env : IntakeEnv} {conv : List Message}
    (hconv : conv ≠ []) (hok : env.analyst = .fail) :
    intakeHandler env (some conv) =
      (.serverError intakeErrorMsg, ⟨[analystMessages conv], [], [], [], [], []⟩) := by
  unfold intakeHandler
  simp [openaiKeyPresent, length_beq_zero_false hconv, hok]

lemma intakeHandler_continue {env : IntakeEnv} {conv : List Message} {reply : String}
    (hconv : conv ≠ []) (hok : env.analyst = .ok reply)
    (hmark : strIncludes reply endOfIntakeMarker = false) :
    intakeHandler env (some conv) =
      (.inProgress reply, ⟨[analystMessages conv], [], [], [], [], []⟩) := by
  unfold intakeHandler
  simp [openaiKeyPresent, length_beq_zero_false hconv, hok, intakeDecision, hmark]

lemma intakeHandler_manager_fail {env : IntakeEnv} {conv : List Message} {reply : String}
    (hconv : conv ≠ []) (hok : env.analyst = .ok reply)
    (hmark : strIncludes reply endOfIntakeMarker = true)
    (hmgr : env.manager = .fail) :
    intakeHandler env (some conv) =
      (.serverError intakeErrorMsg,
       ⟨[analystMessages conv], [managerMessages conv], [], [], [], []⟩) := by
  unfold intakeHandler
  simp [openaiKeyPresent, length_beq_zero_false hconv, hok, intakeDecision, hmark, hmgr]

lemma intakeHandler_parse_fail {env : IntakeEnv} {conv : List Message} {reply raw : String}
    (hconv : conv ≠ []) (hok : env.analyst = .ok reply)
    (hmark : strIncludes reply endOfIntakeMarker = true)
    (hmgr : env.manager = .ok raw) (hparse : env.jsonParse raw = none) :
    intakeHandler env (some conv) =
      (.serverError intakeErrorMsg,
       ⟨[analystMessages conv], [managerMessages conv], [], [], [], []⟩) := by
  unfold intakeHandler
  simp [openaiKeyPresent, length_beq_zero_false hconv, hok, intakeDecision, hmark, hmgr,
    hparse]

lemma intakeHandler_store_fail {env : IntakeEnv} {conv : List Message} {reply raw : String}
    {report : Json}
    (hconv : conv ≠ []) (hok : env.analyst = .ok reply)
    (hmark : strIncludes reply endOfIntakeMarker = true)
    (hmgr : env.manager = .ok raw) (hparse : env.jsonParse raw = some report)
    (hstore : env.storeOk = false) :
    intakeHandler env (some conv) =
      (.serverError intakeErrorMsg,
       ⟨[analystMessages conv], [managerMessages conv],
        [(caseNumber env.now env.rand,
          ⟨report, caseNumber env.now env.rand, conv⟩)], [], [], []⟩) := by
  unfold intakeHandler
  simp [openaiKeyPresent, length_beq_zero_false hconv, hok, intakeDecision, hmark, hmgr,
    hparse, hstore]

lemma intakeHandler_render_fail {env : IntakeEnv} {conv : List Message} {reply raw : String}
    {report : Json}
    (hconv : conv ≠ []) (hok : env.analyst = .ok reply)
    (hmark : strIncludes reply endOfIntakeMarker = true)
    (hmgr : env.manager = .ok raw) (hparse : env.jsonParse raw = some report)
    (hstore : env.storeOk = true)
    (hbody : renderEmailBody (caseNumber env.now env.rand) report conv = none) :
    intakeHandler env (some conv) =
      (.serverError intakeErrorMsg,
       ⟨[analystMessages conv], [managerMessages conv],
        [(caseNumber env.now env.rand, ⟨report, caseNumber env.now env.rand, conv⟩)],
        [(caseNumber env.now env.rand, ⟨report, caseNumber env.now env.rand, conv⟩)],
        [], []⟩) := by
  unfold intakeHandler
  simp [openaiKeyPresent, length_beq_zero_false hconv, hok, intakeDecision, hmark, hmgr,
    hparse, hstore, hbody]

lemma intakeHandler_mail_fail {env : IntakeEnv} {conv : List Message}
    {reply raw body : String} {report : Json}
    (hconv : conv ≠ []) (hok : env.analyst = .ok reply)
    (hmark : strIncludes reply endOfIntakeMarker = true)
    (hmgr : env.manager = .ok raw) (hparse : env.jsonParse raw = some report)
    (hstore : env.storeOk = true)
    (hbody : renderEmailBody (caseNumber env.now env.rand) report conv = some body)
    (hmail : env.mailOk = false) :
    intakeHandler env (some conv) =
      (.serverError intakeErrorMsg,
       ⟨[analystMessages conv], [managerMessages conv],
        [(caseNumber env.now env.rand, ⟨report, caseNumber env.now env.rand, conv⟩)],
        [(caseNumber env.now env.rand, ⟨report, caseNumber env.now env.rand, conv⟩)],
        [intakeMail (caseNumber env.now env.rand) report body], []⟩) := by
  unfold intakeHandler
  simp [openaiKeyPresent, length_beq_zero_false hconv, hok, intakeDecision, hmark, hmgr,
    hparse, hstore, hbody, hmail]

lemma intakeHandler_success {env : IntakeEnv} {conv : List Message}
    {reply raw body : String} {report : Json}
    (hconv : conv ≠ []) (hok : env.analyst = .ok reply)
    (hmark : strIncludes reply endOfIntakeMarker = true)
    (hmgr : env.manager = .ok raw) (hparse : env.jsonParse raw = some report)
    (hstore : env.storeOk = true)
    (hbody : renderEmailBody (caseNumber env.now env.rand) report conv = some body)
    (hmail : env.mailOk = true) :
    intakeHandler env (some conv) =
      (.complete (caseNumber env.now env.rand) report,
       ⟨[analystMessages conv], [managerMessages conv],
        [(caseNumber env.now env.rand, ⟨report, caseNumber env.now env.rand, conv⟩)],
        [(caseNumber env.now env.rand, ⟨report, caseNumber env.now env.rand, conv⟩)],
        [intakeMail (caseNumber env.now env.rand) report body],
        [intakeMail (caseNumber env.now env.rand) report body]⟩) := by
  unfold intakeHandler
  simp [openaiKeyPresent, length_beq_zero_false hconv, hok, intakeDecision, hmark, hmgr,
    hparse, hstore, hbody, hmail]

/-- Once the analyst reply carries the marker, no branch of the handler
answers `in-progress`. -/
lemma intakeHandler_no_inProgress {env : IntakeEnv} {conv : List Message} {reply : String}
    (hconv : conv ≠ []) (hok : env.analyst = .ok reply)
    (hmark : strIncludes reply endOfIntakeMarker = true) :
    ∀ q, (intakeHandler env (some conv)).1 ≠ .inProgress q := by
  intro q
  cases hmgr : env.manager with
  | fail => rw [intakeHandler_manager_fail hconv hok hmark hmgr]; simp
  | ok raw =>
    cases hparse : env.jsonParse raw with
    | none => rw [intakeHandler_parse_fail hconv hok hmark hmgr hparse]; simp
    | some report =>
      cases hstore : env.storeOk with
      | false => rw [intakeHandler_store_fail hconv hok hmark hmgr hparse hstore]; simp
      | true =>
        cases hbody : renderEmailBody (caseNumber env.now env.rand) report conv with
        | none => rw [intakeHandler_render_fail hconv hok hmark hmgr hparse hstore hbody]; simp
        | some body =>
          cases hmail : env.mailOk with
          | false =>
            rw [intakeHandler_mail_fail hconv hok hmark hmgr hparse hstore hbody hmail]; simp
          | true =>
            rw [intakeHandler_success hconv hok hmark hmgr hparse hstore hbody hmail]; simp

/-- After validation passes, the analyst provider is always consulted
(with the analyst prompt prepended) and the response is never a 400. -/
lemma intakeHandler_after_validation (env : IntakeEnv) {conv : List Message}
    (hconv : conv ≠ []) :
    (intakeHandler env (some conv)).2.analystCalls = [analystMessages conv] ∧
    ∀ msg, (intakeHandler env (some conv)).1 ≠ .badRequest msg := by
  cases hok : env.analyst with
  | fail => rw [intakeHandler_analyst_fail hconv hok]; exact ⟨rfl, by simp⟩
  | ok reply =>
    cases hmark : strIncludes reply endOfIntakeMarker with
    | false => rw [intakeHandler_continue hconv hok hmark]; exact ⟨rfl, by simp⟩
    | true =>
      cases hmgr : env.manager with
      | fail => rw [intakeHandler_manager_fail hconv hok hmark hmgr]; exact ⟨rfl, by simp⟩
      | ok raw =>
        cases hparse : env.jsonParse raw with
        | none => rw [intakeHandler_parse_fail hconv hok hmark hmgr hparse]; exact ⟨rfl, by simp⟩
        | some report =>
          cases hstore : env.storeOk with
          | false =>
            rw [intakeHandler_store_fail hconv hok hmark hmgr hparse hstore]
            exact ⟨rfl, by simp⟩
          | true =>
            cases hbody : renderEmailBody (caseNumber env.now env.rand) report conv with
            | none =>
              rw [intakeHandler_render_fail hconv hok hmark hmgr hparse hstore hbody]
              exact ⟨rfl, by simp⟩
            | some body =>
              cases hmail : env.mailOk with
              | false =>
                rw [intakeHandler_mail_fail hconv hok hmark hmgr hparse hstore hbody hmail]
                exact ⟨rfl, by simp⟩
              | true =>
                rw [intakeHandler_success hconv hok hmark hmgr hparse hstore hbody hmail]
                exact ⟨rfl, by simp⟩

/-! Helper lemmas for the case-number format (claim C7). -/

lemma jsNatCharsAux_congr :
    ∀ f1 f2 n : Nat, n < f1 → n < f2 → jsNatCharsAux f1 n = jsNatCharsAux f2 n := by
  intro f1
  induction f1 with
  | zero => intro f2 n h1 _; omega
  | succ f1 ih =>
    intro f2 n h1 h2
    cases f2 with
    | zero => omega
    | succ f2 =>
      show (if n < 10 then _ else _) = (if n < 10 then _ else _)
      split
      · rfl
      · rename_i h10
        have hdiv : n / 10 < n := Nat.div_lt_self (by omega) (by omega)
        rw [ih f2 (n / 10) (by omega) (by omega)]

lemma jsNatChars_small {n : Nat} (h : n < 10) : jsNatChars n = [decDigitChar n] := by
  show (if n < 10 then _ else _) = _
  simp [h]

lemma jsNatChars_step {n : Nat} (h : 10 ≤ n) :
    jsNatChars n = jsNatChars (n / 10) ++ [decDigitChar (n % 10)] := by
  show (if n < 10 then _ else _) = _
  rw [if_neg (by omega)]
  have hdiv : n / 10 < n := Nat.div_lt_self (by omega) (by omega)
  rw [jsNatCharsAux_congr n (n / 10 + 1) (n / 10) (by omega) (by omega)]
  rfl

lemma decDigitChar_isDigit {d : Nat} (h : d < 10) : (decDigitChar d).isDigit = true := by
  interval_cases d <;> decide

lemma jsNatChars_digits (n : Nat) : (jsNatChars n).all Char.isDigit = true := by
  induction n using Nat.strong_induction_on with
  | _ n ih =>
    rcases Nat.lt_or_ge n 10 with h | h
    · rw [jsNatChars_small h]
      simp [decDigitChar_isDigit h]
    · rw [jsNatChars_step h, List.all_append]
      have h1 := ih (n / 10) (Nat.div_lt_self (by omega) (by omega))
      have h2 : n % 10 < 10 := Nat.mod_lt _ (by omega)
      simp [h1, decDigitChar_isDigit h2]

lemma jsNatChars_len1 {n : Nat} (h : n < 10) : (jsNatChars n).length = 1 := by
  rw [jsNatChars_small h]
  rfl

lemma jsNatChars_len2 {n : Nat} (h1 : 10 ≤ n) (h2 : n ≤ 99) : (jsNatChars n).length = 2 := by
  rw [jsNatChars_step h1, List.length_append, jsNatChars_len1 (by omega : n / 10 < 10)]
  rfl

lemma jsNatChars_len4 {n : Nat} (h1 : 1000 ≤ n) (h2 : n ≤ 9999) :
    (jsNatChars n).length = 4 := by
  rw [jsNatChars_step (by omega), List.length_append,
    jsNatChars_step (show 10 ≤ n / 10 by omega), List.length_append,
    jsNatChars_step (show 10 ≤ n / 10 / 10 by omega), List.length_append,
    jsNatChars_len1 (show n / 10 / 10 / 10 < 10 by omega)]
  rfl

lemma mk_length (l : List Char) : (String.mk l).length = l.length := rfl

lemma replicate_zero_digit (k : Nat) : (List.replicate k '0').all Char.isDigit = true := by
  induction k with
  | zero => rfl
  | succ k ih => simp [List.replicate_succ, List.all_cons, ih]

lemma padStart2_two_digits {n : Nat} (h : n ≤ 99) :
    (padStart 2 '0' (jsNatRepr n)).data.length = 2 ∧
    (padStart 2 '0' (jsNatRepr n)).data.all Char.isDigit = true := by
  unfold padStart jsNatRepr
  rw [String.data_append, mk_length]
  show ((List.replicate (2 - (jsNatChars n).length) '0' ++ jsNatChars n).length = 2) ∧ _
  refine ⟨?_, ?_⟩
  · rw [List.length_append, List.length_replicate]
    rcases Nat.lt_or_ge n 10 with h10 | h10
    · rw [jsNatChars_len1 h10]
    · rw [jsNatChars_len2 h10 h]
  · rw [List.all_append, replicate_zero_digit, jsNatChars_digits]
    rfl

lemma base36_upper_ok :
    ∀ d : Fin 36, ((Char.toUpper (base36Char d)).isUpper ||
      (Char.toUpper (base36Char d)).isDigit) = true := by decide

lemma caseFormatChars_of_parts (date suffix : List Char)
    (hdl : date.length = 8) (hdd : date.all Char.isDigit = true)
    (hsl : suffix.length = 6) (hsd : suffix.all (fun c => c.isUpper || c.isDigit) = true) :
    caseFormatChars ('S' :: 'A' :: '-' :: (date ++ '-' :: suffix)) = true := by
  unfold caseFormatChars
  have e1 : ('S' :: 'A' :: '-' :: (date ++ '-' :: suffix)).take 3 = ['S', 'A', '-'] := rfl
  have e2 : ('S' :: 'A' :: '-' :: (date ++ '-' :: suffix)).drop 3 = date ++ '-' :: suffix := rfl
  have e3 : ('S' :: 'A' :: '-' :: (date ++ '-' :: suffix)).drop 11 =
      (date ++ '-' :: suffix).drop 8 := rfl
  have e4 : ('S' :: 'A' :: '-' :: (date ++ '-' :: suffix)).drop 12 =
      (date ++ '-' :: suffix).drop 9 := rfl
  have e5 : (date ++ '-' :: suffix).take 8 = date := by
    rw [List.take_append_eq_append_take, List.take_of_length_le (by omega), hdl]
    simp
  have e6 : (date ++ '-' :: suffix).drop 8 = '-' :: suffix := by
    rw [List.drop_append_eq_append_drop, List.drop_eq_nil_of_le (by omega), hdl]
    simp
  have e7 : (date ++ '-' :: suffix).drop 9 = suffix := by
    rw [List.drop_append_eq_append_drop, List.drop_eq_nil_of_le (by omega), hdl]
    simp
  rw [e1, e2, e3, e4, e5, e6, e7, hdl, hsl, hdd, hsd]
  rfl

lemma caseNumber_data (d : JSDate) (r : List (Fin 36)) :
    (caseNumber d r).data = 'S' :: 'A' :: '-' ::
      ((jsNatChars d.year ++ ((padStart 2 '0' (jsNatRepr (d.monthIndex + 1))).data ++
          (padStart 2 '0' (jsNatRepr d.day)).data)) ++
        '-' :: (r.take 6).map (fun x => Char.toUpper (base36Char x))) := by
  have hsa : "SA-".data = ['S', 'A', '-'] := rfl
  have hhy : "-".data = ['-'] := rfl
  have hsuf : (randSuffix r).data = (r.take 6).map (fun x => Char.toUpper (base36Char x)) := rfl
  have hy : (jsNatRepr d.year).data = jsNatChars d.year := rfl
  simp [caseNumber, String.data_append, hsa, hhy, hsuf, hy]

/-! Helper lemmas for the retrieval contract (claim C8). -/

lemma scoredLe_trans : ∀ a b c : ScoredItem, scoredLe a b → scoredLe b c → scoredLe a c := by
  intro a b c hab hbc
  simp only [scoredLe, decide_eq_true_eq] at *
  omega

lemma scoredLe_total : ∀ a b : ScoredItem, scoredLe a b || scoredLe b a := by
  intro a b
  simp only [scoredLe]
  rcases Nat.le_total b.score a.score with h | h <;> simp [h]

lemma mem_scoredCandidates {query : String} {data : List QAItem} {it : ScoredItem}
    (h : it ∈ scoredCandidates query data) :
    1 ≤ it.score ∧ it.score = scoreOf (splitWs (jsToLower query)) it.Q := by
  simp only [scoredCandidates] at h
  obtain ⟨hmem, hpos⟩ := List.mem_filter.mp h
  obtain ⟨item, _hitem, heq⟩ := List.mem_map.mp hmem
  cases heq
  exact ⟨of_decide_eq_true hpos, rfl⟩

lemma mergeSort_filter_score (query : String) (data : List QAItem) (s : Nat) :
    ((scoredCandidates query data).mergeSort scoredLe).filter (fun it => it.score == s) =
      (scoredCandidates query data).filter (fun it => it.score == s) := by
  have hcpair : ((scoredCandidates query data).filter (fun it => it.score == s)).Pairwise
      (fun a b => scoredLe a b) := by
    apply List.pairwise_of_forall_mem_list
    intro a ha b hb
    have ha' : a.score = s := by simpa using (List.mem_filter.mp ha).2
    have hb' : b.score = s := by simpa using (List.mem_filter.mp hb).2
    simp [scoredLe, ha', hb']
  have hsub : List.Sublist
      ((scoredCandidates query data).filter (fun it => it.score == s))
      ((scoredCandidates query data).mergeSort scoredLe) :=
    List.sublist_mergeSort scoredLe_trans scoredLe_total hcpair (List.filter_sublist _)
  have hself : ((scoredCandidates query data).filter (fun it => it.score == s)).filter
      (fun it => it.score == s) =
      (scoredCandidates query data).filter (fun it => it.score == s) :=
    List.filter_eq_self.mpr (fun a ha => (List.mem_filter.mp ha).2)
  have h1 := hsub.filter (fun it => it.score == s)
  rw [hself] at h1
  have hlen : (((scoredCandidates query data).mergeSort scoredLe).filter
        (fun it => it.score == s)).length =
      ((scoredCandidates query data).filter (fun it => it.score == s)).length :=
    ((List.mergeSort_perm _ scoredLe).filter _).length_eq
  exact (h1.eq_of_length hlen.symm).symm

/-! Claim theorems. -/

/-- C1 (counterexample): a conversation with zero assistant messages,
whose provider reply carries the termination marker, makes the intake
turn run to a Complete response — refuting the claim that the decision
never returns Complete before 3 analyst turns. -/
theorem c1_counterexample :
    assistantCount convW < 3 ∧
    (intakeHandler envComplete (some convW)).1 =
      .complete (caseNumber dateW randW) reportFull :=
  ⟨by decide, rfl⟩

/-- C1 (amended): the server enforces no turn floor. For any
conversation with fewer than 3 assistant messages, a marker-bearing
analyst reply still produces the Complete decision, and the handler
never answers in-progress: the no-early-termination policy lives only
in the instruction text, not in server code. -/
theorem c1_no_server_turn_floor (env : IntakeEnv) (conv : List Message) (reply : String)
    (hconv : conv ≠ []) (_hcount : assistantCount conv < 3)
    (hok : env.analyst = .ok reply)
    (hmark : strIncludes reply endOfIntakeMarker = true) :
    intakeDecision reply = .complete reply ∧
    ∀ q, (intakeHandler env (some conv)).1 ≠ .inProgress q :=
  ⟨intakeDecision_complete_iff.mpr hmark, intakeHandler_no_inProgress hconv hok hmark⟩

/-- C1 (witness): the amended theorem applied to the concrete
first-turn conversation and marker-bearing reply. -/
theorem c1_no_server_turn_floor_witness :
    intakeDecision replyDone = .complete replyDone ∧
    ∀ q, (intakeHandler envComplete (some convW)).1 ≠ .inProgress q :=
  c1_no_server_turn_floor envComplete convW replyDone (by decide) (by decide) rfl (by decide)

/-- C2 (counterexample): a manager output that parses but lacks
`projectName`, `projectSummary` and `interviewDate` is committed
anyway — the handler answers complete, writes the store and sends the
mail, refuting the claim that missing required fields abort the call
with no store/notifier interaction. -/
theorem c2_counterexample :
    reportSparse.get "projectName" = none ∧
    reportSparse.get "projectSummary" = none ∧
    reportSparse.get "interviewDate" = none ∧
    (intakeHandler envSparse (some convW)).1 =
      .complete (caseNumber dateW randW) reportSparse ∧
    ((intakeHandler envSparse (some convW)).2.storeCalls).length = 1 ∧
    ((intakeHandler envSparse (some convW)).2.mailsSent).length = 1 :=
  ⟨rfl, rfl, rfl, rfl, rfl, rfl⟩

/-- C2 (amended): only parse failure is validated. When `JSON.parse`
fails on the manager output, the call fails with the generic 500 error
and neither the store nor the notifier is called. There is no
field-presence validation: any parsed object — whatever fields it
lacks — is committed to the store verbatim. What happens next depends
only on `keyFeatures`: if it is an array, the mail is sent and the
call completes successfully despite any other missing fields; if it
is not an array (e.g. absent), the email template's
`report.keyFeatures.map` throws, so the call ends 500 with the record
already persisted and no mail attempted. -/
theorem c2_no_field_validation (env : IntakeEnv) (conv : List Message) (reply raw : String)
    (report : Json)
    (hconv : conv ≠ []) (hok : env.analyst = .ok reply)
    (hmark : strIncludes reply endOfIntakeMarker = true)
    (hmgr : env.manager = .ok raw) :
    (env.jsonParse raw = none →
      (intakeHandler env (some conv)).1 = .serverError intakeErrorMsg ∧
      (intakeHandler env (some conv)).2.storeCalls = [] ∧
      (intakeHandler env (some conv)).2.mailCalls = []) ∧
    (env.jsonParse raw = some report → env.storeOk = true →
      (intakeHandler env (some conv)).2.storeCalls =
        [(caseNumber env.now env.rand, ⟨report, caseNumber env.now env.rand, conv⟩)] ∧
      (∀ body, renderEmailBody (caseNumber env.now env.rand) report conv = some body →
        env.mailOk = true →
        (intakeHandler env (some conv)).1 =
          .complete (caseNumber env.now env.rand) report) ∧
      (renderEmailBody (caseNumber env.now env.rand) report conv = none →
        (intakeHandler env (some conv)).1 = .serverError intakeErrorMsg ∧
        (intakeHandler env (some conv)).2.stored =
          [(caseNumber env.now env.rand, ⟨report, caseNumber env.now env.rand, conv⟩)] ∧
        (intakeHandler env (some conv)).2.mailCalls = [])) := by
  constructor
  · intro hparse
    rw [intakeHandler_parse_fail hconv hok hmark hmgr hparse]
    exact ⟨rfl, rfl, rfl⟩
  · intro hparse hstore
    refine ⟨?_, ?_, ?_⟩
    · cases hbody : renderEmailBody (caseNumber env.now env.rand) report conv with
      | none => rw [intakeHandler_render_fail hconv hok hmark hmgr hparse hstore hbody]
      | some body =>
        cases hmail : env.mailOk with
        | false => rw [intakeHandler_mail_fail hconv hok hmark hmgr hparse hstore hbody hmail]
        | true => rw [intakeHandler_success hconv hok hmark hmgr hparse hstore hbody hmail]
    · intro body hbody hmail
      rw [intakeHandler_success hconv hok hmark hmgr hparse hstore hbody hmail]
    · intro hbody
      rw [intakeHandler_render_fail hconv hok hmark hmgr hparse hstore hbody]
      exact ⟨rfl, rfl, rfl⟩

/-- C2 (witness): the amended theorem applied twice concretely — with
a failing `JSON.parse` the store is never called, and with the sparse
report (missing `projectName`, `projectSummary`, `interviewDate` but
keeping an array `keyFeatures`) the store receives the report verbatim
and the call completes. -/
theorem c2_no_field_validation_witness :
    (intakeHandler envParseFail (some convW)).2.storeCalls = [] ∧
    (intakeHandler envSparse (some convW)).2.storeCalls =
      [(caseNumber envSparse.now envSparse.rand,
        ⟨reportSparse, caseNumber envSparse.now envSparse.rand, convW⟩)] ∧
    (intakeHandler envSparse (some convW)).1 =
      .complete (caseNumber envSparse.now envSparse.rand) reportSparse := by
  refine ⟨?_, ?_, ?_⟩
  · exact ((c2_no_field_validation envParseFail convW replyDone "not json" reportSparse
      (by decide) rfl (by decide) rfl).1 rfl).2.1
  · exact ((c2_no_field_validation envSparse convW replyDone "raw-report-json" reportSparse
      (by decide) rfl (by decide) rfl).2 rfl rfl).1
  · exact ((c2_no_field_validation envSparse convW replyDone "raw-report-json" reportSparse
      (by decide) rfl (by decide) rfl).2 rfl rfl).2.1
      ((renderEmailBody (caseNumber envSparse.now envSparse.rand) reportSparse convW).getD "")
      rfl rfl

/-- C3 (counterexample): the manager instruction never mentions
`interviewDate` and a fully successful finalize returns a report with
no `interviewDate` field at all — refuting the claim that every
successful finalize carries a non-empty server-stamped
`interviewDate`. -/
theorem c3_counterexample :
    strIncludes managerSystemPrompt "interviewDate" = false ∧
    (intakeHandler envComplete (some convW)).1 =
      .complete (caseNumber dateW randW) reportFull ∧
    reportFull.get "interviewDate" = none :=
  ⟨by decide, rfl, rfl⟩

/-- C3 (amended): on a fully successful finalize the server echoes the
parsed manager output verbatim as the report — it neither injects a
timestamp into the manager instruction (which does not mention
`interviewDate`) nor stamps or validates an `interviewDate` field. -/
theorem c3_report_echoes_model_output (env : IntakeEnv) (conv : List Message)
    (reply raw body : String) (report : Json)
    (hconv : conv ≠ []) (hok : env.analyst = .ok reply)
    (hmark : strIncludes reply endOfIntakeMarker = true)
    (hmgr : env.manager = .ok raw) (hparse : env.jsonParse raw = some report)
    (hstore : env.storeOk = true)
    (hbody : renderEmailBody (caseNumber env.now env.rand) report conv = some body)
    (hmail : env.mailOk = true) :
    (intakeHandler env (some conv)).1 =
      .complete (caseNumber env.now env.rand) report ∧
    strIncludes managerSystemPrompt "interviewDate" = false := by
  rw [intakeHandler_success hconv hok hmark hmgr hparse hstore hbody hmail]
  exact ⟨rfl, by decide⟩

/-- C3 (witness): the amended theorem applied to the concrete
fully-succeeding environment. -/
theorem c3_report_echoes_model_output_witness :
    (intakeHandler envComplete (some convW)).1 =
      .complete (caseNumber envComplete.now envComplete.rand) reportFull ∧
    strIncludes managerSystemPrompt "interviewDate" = false :=
  c3_report_echoes_model_output envComplete convW replyDone "raw-report-json" bodyW reportFull
    (by decide) rfl (by decide) rfl rfl rfl rfl rfl

/-- C4 (counterexample): a non-empty conversation whose last message
has role "assistant" is not rejected: the analyst provider is called
and the handler answers in-progress, refuting the claimed 400-on-bad-
last-role validation. -/
theorem c4_counterexample :
    (convAssistantLast.getLast?.map Message.role ≠ some "user") ∧
    (intakeHandler envContinue (some convAssistantLast)).1 =
      .inProgress "What apps do you use?" ∧
    ((intakeHandler envContinue (some convAssistantLast)).2.analystCalls).length = 1 :=
  ⟨by decide, rfl, rfl⟩

/-- C4 (amended): the only request validation on `/intake` is
absent/non-array/empty `conversation` (400). For every non-empty
conversation — regardless of the last message's role — the analyst
provider is called and the response is never a 400. -/
theorem c4_no_last_role_check (env : IntakeEnv) (conv : List Message) (hconv : conv ≠ []) :
    (intakeHandler env none).1 = .badRequest intakeBadRequestMsg ∧
    (intakeHandler env (some [])).1 = .badRequest intakeBadRequestMsg ∧
    (intakeHandler env (some conv)).2.analystCalls = [analystMessages conv] ∧
    ∀ msg, (intakeHandler env (some conv)).1 ≠ .badRequest msg := by
  obtain ⟨h1, h2⟩ := intakeHandler_after_validation env hconv
  exact ⟨rfl, rfl, h1, h2⟩

/-- C4 (witness): the amended theorem applied to the concrete
assistant-last conversation. -/
theorem c4_no_last_role_check_witness :
    (intakeHandler envContinue none).1 = .badRequest intakeBadRequestMsg ∧
    (intakeHandler envContinue (some [])).1 = .badRequest intakeBadRequestMsg ∧
    (intakeHandler envContinue (some convAssistantLast)).2.analystCalls =
      [analystMessages convAssistantLast] ∧
    ∀ msg, (intakeHandler envContinue (some convAssistantLast)).1 ≠ .badRequest msg :=
  c4_no_last_role_check envContinue convAssistantLast (by decide)

/-- C5: the turn decision is Complete exactly when the analyst reply
contains the literal marker; otherwise the handler answers 200
in-progress with the reply text verbatim, and an in-progress answer
can only arise from a marker-free reply (echoed verbatim). -/
theorem c5_marker_decides_turn (env : IntakeEnv) (conv : List Message) (reply : String)
    (hconv : conv ≠ []) (hok : env.analyst = .ok reply) :
    (intakeDecision reply = .complete reply ↔
      strIncludes reply endOfIntakeMarker = true) ∧
    (strIncludes reply endOfIntakeMarker = false →
      intakeHandler env (some conv) =
        (.inProgress reply, ⟨[analystMessages conv], [], [], [], [], []⟩)) ∧
    (∀ q, (intakeHandler env (some conv)).1 = .inProgress q →
      strIncludes reply endOfIntakeMarker = false ∧ q = reply) := by
  refine ⟨intakeDecision_complete_iff, fun hmark => intakeHandler_continue hconv hok hmark, ?_⟩
  intro q hq
  cases hmark : strIncludes reply endOfIntakeMarker with
  | false =>
    rw [intakeHandler_continue hconv hok hmark] at hq
    exact ⟨rfl, (IntakeResponse.inProgress.injEq q reply).mp hq.symm⟩
  | true => exact absurd hq (intakeHandler_no_inProgress hconv hok hmark q)

/-- C5 (witness): the theorem applied to the concrete continuing
environment. -/
theorem c5_marker_decides_turn_witness :
    (intakeDecision "What apps do you use?" = .complete "What apps do you use?" ↔
      strIncludes "What apps do you use?" endOfIntakeMarker = true) ∧
    (strIncludes "What apps do you use?" endOfIntakeMarker = false →
      intakeHandler envContinue (some convW) =
        (.inProgress "What apps do you use?", ⟨[analystMessages convW], [], [], [], [], []⟩)) ∧
    (∀ q, (intakeHandler envContinue (some convW)).1 = .inProgress q →
      strIncludes "What apps do you use?" endOfIntakeMarker = false ∧
        q = "What apps do you use?") :=
  c5_marker_decides_turn envContinue convW "What apps do you use?" (by decide) rfl

/-- C6: when the store write succeeds and the subsequent mail delivery
fails, the caller gets the 500 error, yet the case record remains
persisted (not rolled back) and no mail was sent. -/
theorem c6_notifier_failure_after_persist (env : IntakeEnv) (conv : List Message)
    (reply raw body : String) (report : Json)
    (hconv : conv ≠ []) (hok : env.analyst = .ok reply)
    (hmark : strIncludes reply endOfIntakeMarker = true)
    (hmgr : env.manager = .ok raw) (hparse : env.jsonParse raw = some report)
    (hstore : env.storeOk = true)
    (hbody : renderEmailBody (caseNumber env.now env.rand) report conv = some body)
    (hmail : env.mailOk = false) :
    (intakeHandler env (some conv)).1 = .serverError intakeErrorMsg ∧
    (intakeHandler env (some conv)).2.stored =
      [(caseNumber env.now env.rand, ⟨report, caseNumber env.now env.rand, conv⟩)] ∧
    (intakeHandler env (some conv)).2.mailCalls =
      [intakeMail (caseNumber env.now env.rand) report body] ∧
    (intakeHandler env (some conv)).2.mailsSent = [] := by
  rw [intakeHandler_mail_fail hconv hok hmark hmgr hparse hstore hbody hmail]
  exact ⟨rfl, rfl, rfl, rfl⟩

/-- C6 (witness): the theorem applied to the concrete environment with
failing mail delivery. -/
theorem c6_notifier_failure_after_persist_witness :
    (intakeHandler envMailFail (some convW)).1 = .serverError intakeErrorMsg ∧
    (intakeHandler envMailFail (some convW)).2.stored =
      [(caseNumber envMailFail.now envMailFail.rand,
        ⟨reportFull, caseNumber envMailFail.now envMailFail.rand, convW⟩)] ∧
    (intakeHandler envMailFail (some convW)).2.mailCalls =
      [intakeMail (caseNumber envMailFail.now envMailFail.rand) reportFull bodyW] ∧
    (intakeHandler envMailFail (some convW)).2.mailsSent = [] :=
  c6_notifier_failure_after_persist envMailFail convW replyDone "raw-report-json" bodyW
    reportFull (by decide) rfl (by decide) rfl rfl rfl rfl rfl

/-- C7 (counterexample): `Math.random().toString(36)` can print fewer
than 8 characters, leaving fewer than 6 suffix characters after
`substr(2, 6)` — e.g. `Math.random() = 0.5` prints "0.i", giving the
case number "SA-20240101-I" with a 1-character suffix, and
`Math.random() = 0` prints "0", giving an empty suffix. Both violate
the claimed exactly-6-character format. -/
theorem c7_counterexample :
    caseNumber dateW [18] = "SA-20240101-I" ∧
    caseNumberSpecFormat (caseNumber dateW [18]) = false ∧
    caseNumberSpecFormat (caseNumber dateW []) = false :=
  ⟨rfl, rfl, rfl⟩

/-- C7 (amended): the suffix has length `min 6 r` for `r` base-36
digits printed by `toString(36)`, so it is *at most* 6 uppercase
alphanumeric characters; whenever at least 6 digits are printed (and
the date fields are in their calendar ranges with a 4-digit year), the
case number matches `SA-YYYYMMDD-XXXXXX` exactly. -/
theorem c7_case_number_format (d : JSDate) (r : List (Fin 36))
    (hy1 : 1000 ≤ d.year) (hy2 : d.year ≤ 9999)
    (hm : d.monthIndex ≤ 11) (hd : d.day ≤ 31) (hr : 6 ≤ r.length) :
    caseNumberSpecFormat (caseNumber d r) = true ∧
    (randSuffix r).length = min 6 r.length := by
  constructor
  · unfold caseNumberSpecFormat
    rw [caseNumber_data]
    apply caseFormatChars_of_parts
    · obtain ⟨hm2, _⟩ := @padStart2_two_digits (d.monthIndex + 1) (by omega)
      obtain ⟨hd2, _⟩ := @padStart2_two_digits d.day (by omega)
      rw [List.length_append, List.length_append, jsNatChars_len4 hy1 hy2, hm2, hd2]
    · obtain ⟨_, hm3⟩ := @padStart2_two_digits (d.monthIndex + 1) (by omega)
      obtain ⟨_, hd3⟩ := @padStart2_two_digits d.day (by omega)
      rw [List.all_append, List.all_append, jsNatChars_digits, hm3, hd3]
      rfl
    · rw [List.length_map, List.length_take]
      omega
    · apply List.all_eq_true.mpr
      intro c hc
      obtain ⟨x, _, rfl⟩ := List.mem_map.mp hc
      exact base36_upper_ok x
  · rw [show (randSuffix r).length =
        ((r.take 6).map (fun x => Char.toUpper (base36Char x))).length from rfl,
      List.length_map, List.length_take]

/-- C7 (witness): the amended theorem applied to 2024-01-01 with six
random digits. -/
theorem c7_case_number_format_witness :
    caseNumberSpecFormat (caseNumber dateW randW) = true ∧
    (randSuffix randW).length = min 6 randW.length :=
  c7_case_number_format dateW randW (by decide) (by decide) (by decide) (by decide) (by decide)

/-- C8: `getRelevantSnippets(query, data, 7)` returns at most 7 items;
every returned item scores at least 1, its score being exactly the
count of lower-cased whitespace-split query tokens occurring as
substrings of its lower-cased question; the result is sorted by
descending score; and for every score value the returned items with
that score form a prefix of the corpus-ordered candidates with that
score (stable ties, zero scores excluded). -/
theorem c8_topK_contract (query : String) (data : List QAItem) (s : Nat) :
    (getRelevantSnippets query data 7).length ≤ 7 ∧
    (∀ it ∈ getRelevantSnippets query data 7,
      1 ≤ it.score ∧ it.score = scoreOf (splitWs (jsToLower query)) it.Q) ∧
    (getRelevantSnippets query data 7).Pairwise (fun a b => b.score ≤ a.score) ∧
    List.IsPrefix
      ((getRelevantSnippets query data 7).filter (fun it => it.score == s))
      ((scoredCandidates query data).filter (fun it => it.score == s)) := by
  refine ⟨List.length_take_le 7 _, ?_, ?_, ?_⟩
  · intro it hit
    exact mem_scoredCandidates (List.mem_mergeSort.mp (List.mem_of_mem_take hit))
  · have hs := List.sorted_mergeSort scoredLe_trans scoredLe_total (scoredCandidates query data)
    have hs' : ((scoredCandidates query data).mergeSort scoredLe).Pairwise
        (fun a b => b.score ≤ a.score) :=
      hs.imp (fun hab => of_decide_eq_true hab)
    exact hs'.sublist (List.take_sublist 7 _)
  · rw [show getRelevantSnippets query data 7 =
        ((scoredCandidates query data).mergeSort scoredLe).take 7 from rfl,
      ← mergeSort_filter_score query data s]
    exact (List.take_prefix 7 _).filter _

/-- C8 (witness): the contract applied to a concrete query and corpus. -/
theorem c8_topK_contract_witness :
    (getRelevantSnippets "automation workflow" corpusW 7).length ≤ 7 :=
  (c8_topK_contract "automation workflow" corpusW 1).1

/-- C9: commit is not idempotent — two different random draws on the
identical `(report, conversation)` pair mint two distinct case numbers
and leave two distinct records in the store. -/
theorem c9_commit_not_idempotent :
    (commit reportFull convW dateW randW []).1 ≠
      (commit reportFull convW dateW randW2 []).1 ∧
    ((commit reportFull convW dateW randW2
        (commit reportFull convW dateW randW []).2).2).length = 2 ∧
    ((commit reportFull convW dateW randW2
        (commit reportFull convW dateW randW []).2).2).map Prod.fst =
      [caseNumber dateW randW, caseNumber dateW randW2] :=
  ⟨by decide, rfl, rfl⟩

/-- C10: a falsy `message` value (empty string, 0, false, null) is
rejected with the same 400 and no provider call, indistinguishably
from an absent field. -/
theorem c10_falsy_message_rejected (env : ChatEnv) (v : Json) (hfalsy : v.truthy = false) :
    chatHandler env (some v) = (.badRequest chatBadRequestMsg, false) ∧
    chatHandler env (some v) = chatHandler env none := by
  have h1 : chatHandler env (some v) = (.badRequest chatBadRequestMsg, false) := by
    unfold chatHandler
    simp [openaiKeyPresent, hfalsy]
  exact ⟨h1, by rw [h1]; rfl⟩

/-- C10 (witness): the theorem applied to the empty-string message. -/
theorem c10_falsy_message_rejected_witness :
    chatHandler chatEnvW (some (Json.str "")) = (.badRequest chatBadRequestMsg, false) ∧
    chatHandler chatEnvW (some (Json.str "")) = chatHandler chatEnvW none :=
  c10_falsy_message_rejected chatEnvW (Json.str "") rfl

end SakisBot
